import Mathlib

/-!
Verification model of the nvidiot DRS core (src-tauri/src/nvapi).

The native NVAPI backend is external to the repository; it is modelled as an
abstract `Backend` of pure per-primitive responses.  Every modelled Rust
function returns, besides its `Result`, the list of backend calls it issued
(`List ApiCall`), so that claims about which mutations were performed and in
which order can be stated.  Handles are opaque tokens (`Nat`).  Wide-character
buffers are modelled separately (`string_to_wchar` below); at the call layer a
string argument stands for the buffer produced from it.  The function-table
entries (`Option` function pointers in ffi.rs) are modelled as all resolved,
and `get_session` as the steady state in which the process-wide session
already exists.
-/

namespace Nvidiot

/-! ### Status codes (src/src-tauri/src/nvapi/error.rs) -/

def NVAPI_OK : Int := 0
def NVAPI_ERROR : Int := -1
def NVAPI_LIBRARY_NOT_FOUND : Int := -2
def NVAPI_NO_IMPLEMENTATION : Int := -3
def NVAPI_API_NOT_INITIALIZED : Int := -4
def NVAPI_INVALID_ARGUMENT : Int := -5
def NVAPI_NVIDIA_DEVICE_NOT_FOUND : Int := -6
def NVAPI_END_ENUMERATION : Int := -7
def NVAPI_INVALID_HANDLE : Int := -8
def NVAPI_INCOMPATIBLE_STRUCT_VERSION : Int := -9
def NVAPI_PROFILE_NOT_FOUND : Int := -175
def NVAPI_PROFILE_NAME_IN_USE : Int := -176
def NVAPI_EXECUTABLE_NOT_FOUND : Int := -183
def NVAPI_EXECUTABLE_ALREADY_IN_USE : Int := -184
def NVAPI_SETTING_NOT_FOUND : Int := -179

/-! ### Constants (src/src-tauri/src/nvapi/ffi.rs) -/

def NVDRS_PROFILE_VER : Nat := 0x10028
def NVDRS_APPLICATION_VER : Nat := 0x30038
def NVDRS_SETTING_VER : Nat := 0x10058
def NVAPI_UNICODE_STRING_MAX : Nat := 2048
def SHADOWPLAY_SETTING_ID : Nat := 0x809D5F60
def SHADOWPLAY_DISABLED : Nat := 0x10000000
def SHADOWPLAY_ENABLED : Nat := 0x08000001

/-- u32::MAX, used by enumerate_applications when the profile-info read fails. -/
def U32_MAX : Nat := 4294967295

/-- Opaque session handle (`*mut c_void` in ffi.rs), modelled as a token. -/
abbrev NvDRSSessionHandle := Nat

/-- Opaque profile handle (`*mut c_void` in ffi.rs), modelled as a token. -/
abbrev NvDRSProfileHandle := Nat

/-! ### Error type (src/src-tauri/src/nvapi/error.rs) -/

inductive NvApiError where
  | LibraryNotFound
  | InitializationFailed (code : Int)
  | NoGpuFound
  | SessionCreationFailed (code : Int)
  | LoadSettingsFailed (code : Int)
  | SaveSettingsFailed (code : Int)
  | ProfileNotFound (name : String)
  | ApplicationNotFound (name : String)
  | ProfileCreationFailed (code : Int)
  | ApplicationCreationFailed (code : Int)
  | SetSettingFailed (code : Int)
  | GetSettingFailed (code : Int)
  | FunctionNotFound (name : String)
  | NvApiStatus (code : Int)
  | NotSupported
deriving DecidableEq, Repr

/-! ### FFI structures (src/src-tauri/src/nvapi/ffi.rs), with wide-character
string fields modelled as `String` -/

structure NvdrsProfile where
  version : Nat := NVDRS_PROFILE_VER
  profile_name : String := ""
  gpu_support : Nat := 0
  is_predefined : Nat := 0
  num_of_apps : Nat := 0
  num_of_settings : Nat := 0
deriving DecidableEq, Repr

structure NvdrsApplication where
  version : Nat := NVDRS_APPLICATION_VER
  is_predefined : Nat := 0
  app_name : String := ""
  user_friendly_name : String := ""
  launcher : String := ""
deriving DecidableEq, Repr

/-- Only the DWORD variant of the value union is exercised by the program, so
`predefined_value` and `current_value` are modelled as the dword member. -/
structure NvdrsSetting where
  version : Nat := NVDRS_SETTING_VER
  setting_name : String := ""
  setting_id : Nat := 0
  setting_type : Nat := 0
  setting_location : Nat := 0
  is_current_predefined : Nat := 0
  is_predefined_valid : Nat := 0
  predefined_value : Nat := 0
  current_value : Nat := 0
deriving DecidableEq, Repr

/-! ### Result types (src/src-tauri/src/nvapi/types.rs) -/

structure DrsProfile where
  name : String
  is_predefined : Bool
  application_count : Nat
deriving DecidableEq, Repr

structure DrsApplication where
  name : String
  executable : String
  profile_name : String
  is_predefined : Bool
  is_blacklisted : Bool
deriving DecidableEq, Repr

structure BlacklistResult where
  success : Bool
  executable : String
  message : String
deriving DecidableEq, Repr

/-! ### The abstract backend and the call trace -/

/-- One invocation of a native backend primitive, as recorded in a trace. -/
inductive ApiCall where
  | createSession
  | destroySession (session : NvDRSSessionHandle)
  | loadSettings (session : NvDRSSessionHandle)
  | saveSettings
  | enumProfiles (index : Nat)
  | getProfileInfo (profile : NvDRSProfileHandle)
  | findProfileByName (name : String)
  | createProfile (info : NvdrsProfile)
  | enumApplications (profile : NvDRSProfileHandle) (start numRequested : Nat)
  | findApplicationByName (name : String)
  | createApplication (profile : NvDRSProfileHandle) (app : NvdrsApplication)
  | getSetting (profile : NvDRSProfileHandle) (setting_id : Nat)
  | setSetting (profile : NvDRSProfileHandle) (setting : NvdrsSetting)
deriving DecidableEq, Repr

/-- Pure responses of the native backend, one field per primitive used by the
program.  `enum_applications_resp` receives (profile, start index, requested
count) and yields (status, returned count, filled entries). -/
structure Backend where
  create_session_resp : Int × NvDRSSessionHandle
  load_settings_resp : NvDRSSessionHandle → Int
  save_settings_resp : Int
  enum_profiles_resp : Nat → Int × NvDRSProfileHandle
  get_profile_info_resp : NvDRSProfileHandle → Int × NvdrsProfile
  find_profile_resp : String → Int × NvDRSProfileHandle
  create_profile_resp : NvdrsProfile → Int × NvDRSProfileHandle
  enum_applications_resp : NvDRSProfileHandle → Nat → Nat → Int × Nat × List NvdrsApplication
  find_application_resp : String → Int × NvDRSProfileHandle × NvdrsApplication
  create_application_resp : NvDRSProfileHandle → NvdrsApplication → Int
  get_setting_resp : NvDRSProfileHandle → Nat → Int × NvdrsSetting
  set_setting_resp : NvDRSProfileHandle → NvdrsSetting → Int
  session : NvDRSSessionHandle

/-! ### Session management (src/src-tauri/src/nvapi/session.rs) -/

/-- `create_session`: create-session primitive, then load-settings; on a
load-settings failure the fresh handle is destroyed before returning. -/
def create_session (b : Backend) :
    List ApiCall × Except NvApiError NvDRSSessionHandle :=
  let r := b.create_session_resp
  if r.1 ≠ NVAPI_OK then
    ([.createSession], .error (.SessionCreationFailed r.1))
  else
    let lstatus := b.load_settings_resp r.2
    if lstatus ≠ NVAPI_OK then
      ([.createSession, .loadSettings r.2, .destroySession r.2],
        .error (.LoadSettingsFailed lstatus))
    else
      ([.createSession, .loadSettings r.2], .ok r.2)

/-- `get_session` in the steady state: the process-wide session exists. -/
def get_session (b : Backend) : NvDRSSessionHandle := b.session

/-- `save_settings`: commit in-memory registry state via the backend. -/
def save_settings (b : Backend) : List ApiCall × Except NvApiError Unit :=
  let status := b.save_settings_resp
  if status ≠ NVAPI_OK then
    ([.saveSettings], .error (.SaveSettingsFailed status))
  else
    ([.saveSettings], .ok ())

/-! ### Setting store (src/src-tauri/src/nvapi/settings.rs) -/

/-- `get_dword_setting`: both the setting-not-found status and any other
non-success status are wrapped as `GetSettingFailed status`. -/
def get_dword_setting (profile_handle : NvDRSProfileHandle) (setting_id : Nat)
    (b : Backend) : List ApiCall × Except NvApiError Nat :=
  let r := b.get_setting_resp profile_handle setting_id
  if r.1 = NVAPI_SETTING_NOT_FOUND then
    ([.getSetting profile_handle setting_id], .error (.GetSettingFailed r.1))
  else if r.1 ≠ NVAPI_OK then
    ([.getSetting profile_handle setting_id], .error (.GetSettingFailed r.1))
  else
    ([.getSetting profile_handle setting_id], .ok r.2.current_value)

/-- The DWORD setting record `set_dword_setting` submits: fresh default
record with the version, the id, type 0 (DWORD) and the value filled in. -/
def dwordSettingRecord (setting_id value : Nat) : NvdrsSetting :=
  { version := NVDRS_SETTING_VER, setting_id := setting_id,
    setting_type := 0, current_value := value }

/-- `set_dword_setting`: builds the DWORD setting record and submits it. -/
def set_dword_setting (profile_handle : NvDRSProfileHandle) (setting_id : Nat)
    (value : Nat) (b : Backend) : List ApiCall × Except NvApiError Unit :=
  let setting := dwordSettingRecord setting_id value
  let status := b.set_setting_resp profile_handle setting
  if status ≠ NVAPI_OK then
    ([.setSetting profile_handle setting], .error (.SetSettingFailed status))
  else
    ([.setSetting profile_handle setting], .ok ())

/-- `get_shadowplay_status`: reads the ShadowPlay setting; any
`GetSettingFailed` is treated as the default (not blacklisted). -/
def get_shadowplay_status (profile_handle : NvDRSProfileHandle) (b : Backend) :
    List ApiCall × Except NvApiError Bool :=
  let r := get_dword_setting profile_handle SHADOWPLAY_SETTING_ID b
  match r.2 with
  | .ok value => (r.1, .ok (value == SHADOWPLAY_DISABLED))
  | .error (.GetSettingFailed _) => (r.1, .ok false)
  | .error e => (r.1, .error e)

/-! ### Profile catalog, non-loop parts (src/src-tauri/src/nvapi/profiles.rs) -/

/-- `find_profile_by_name`: the profile-not-found sentinel becomes
`ProfileNotFound name`, any other non-success status a generic status error. -/
def find_profile_by_name (name : String) (b : Backend) :
    List ApiCall × Except NvApiError NvDRSProfileHandle :=
  let r := b.find_profile_resp name
  if r.1 = NVAPI_PROFILE_NOT_FOUND then
    ([.findProfileByName name], .error (.ProfileNotFound name))
  else if r.1 ≠ NVAPI_OK then
    ([.findProfileByName name], .error (.NvApiStatus r.1))
  else
    ([.findProfileByName name], .ok r.2)

/-- The profile record `create_profile` submits: fresh default record with
the version and the display name filled in. -/
def profileInfoRecord (name : String) : NvdrsProfile :=
  { version := NVDRS_PROFILE_VER, profile_name := name }

/-- `create_profile`: submits a profile record carrying the display name. -/
def create_profile (name : String) (b : Backend) :
    List ApiCall × Except NvApiError NvDRSProfileHandle :=
  let info := profileInfoRecord name
  let r := b.create_profile_resp info
  if r.1 ≠ NVAPI_OK then
    ([.createProfile info], .error (.ProfileCreationFailed r.1))
  else
    ([.createProfile info], .ok r.2)

/-! ### Application registry, non-loop parts
(src/src-tauri/src/nvapi/applications.rs) -/

/-- `find_application`: full-registry lookup by executable name; the
executable-not-found sentinel becomes `ApplicationNotFound`. -/
def find_application (executable : String) (b : Backend) :
    List ApiCall × Except NvApiError (NvDRSProfileHandle × NvdrsApplication) :=
  let r := b.find_application_resp executable
  if r.1 = NVAPI_EXECUTABLE_NOT_FOUND then
    ([.findApplicationByName executable], .error (.ApplicationNotFound executable))
  else if r.1 ≠ NVAPI_OK then
    ([.findApplicationByName executable], .error (.NvApiStatus r.1))
  else
    ([.findApplicationByName executable], .ok (r.2.1, r.2.2))

/-- The application record `create_application` submits: fresh default record
with the version, the executable name and the friendly name filled in. -/
def applicationRecord (executable friendly_name : String) : NvdrsApplication :=
  { version := NVDRS_APPLICATION_VER, app_name := executable,
    user_friendly_name := friendly_name }

/-- `create_application`: inserts a new application row in the profile. -/
def create_application (profile_handle : NvDRSProfileHandle)
    (executable friendly_name : String) (b : Backend) :
    List ApiCall × Except NvApiError Unit :=
  let app := applicationRecord executable friendly_name
  let status := b.create_application_resp profile_handle app
  if status ≠ NVAPI_OK then
    ([.createApplication profile_handle app],
      .error (.ApplicationCreationFailed status))
  else
    ([.createApplication profile_handle app], .ok ())

/-! ### Blacklist orchestrator (src/src-tauri/src/nvapi/settings.rs) -/

/-- `blacklist_application`: found applications get the disabled sentinel set
and persisted; unknown executables get a fresh profile named
`"Nvidiot - <executable>"` (found or created), an application entry, the
disabled sentinel, and persistence. -/
def blacklist_application (executable : String) (b : Backend) :
    List ApiCall × Except NvApiError BlacklistResult :=
  let rfind := find_application executable b
  match rfind.2 with
  | .ok (profile_handle, _app) =>
    let rset := set_dword_setting profile_handle SHADOWPLAY_SETTING_ID SHADOWPLAY_DISABLED b
    match rset.2 with
    | .error e => (rfind.1 ++ rset.1, .error e)
    | .ok _ =>
      let rsave := save_settings b
      match rsave.2 with
      | .error e => (rfind.1 ++ rset.1 ++ rsave.1, .error e)
      | .ok _ =>
        (rfind.1 ++ rset.1 ++ rsave.1,
          .ok { success := true, executable := executable,
                message := "Application blacklisted successfully" })
  | .error (.ApplicationNotFound _) =>
    let profile_name := "Nvidiot - " ++ executable
    let rprof := find_profile_by_name profile_name b
    let resolved : List ApiCall × Except NvApiError NvDRSProfileHandle :=
      match rprof.2 with
      | .ok handle => (rprof.1, .ok handle)
      | .error (.ProfileNotFound _) =>
        let rcreate := create_profile profile_name b
        (rprof.1 ++ rcreate.1, rcreate.2)
      | .error e => (rprof.1, .error e)
    match resolved.2 with
    | .error e => (rfind.1 ++ resolved.1, .error e)
    | .ok profile_handle =>
      let rapp := create_application profile_handle executable profile_name b
      match rapp.2 with
      | .error e => (rfind.1 ++ resolved.1 ++ rapp.1, .error e)
      | .ok _ =>
        let rset := set_dword_setting profile_handle SHADOWPLAY_SETTING_ID SHADOWPLAY_DISABLED b
        match rset.2 with
        | .error e => (rfind.1 ++ resolved.1 ++ rapp.1 ++ rset.1, .error e)
        | .ok _ =>
          let rsave := save_settings b
          match rsave.2 with
          | .error e =>
            (rfind.1 ++ resolved.1 ++ rapp.1 ++ rset.1 ++ rsave.1, .error e)
          | .ok _ =>
            (rfind.1 ++ resolved.1 ++ rapp.1 ++ rset.1 ++ rsave.1,
              .ok { success := true, executable := executable,
                    message := "Created profile '" ++ profile_name ++
                      "' and blacklisted application" })
  | .error e => (rfind.1, .error e)

/-- `unblacklist_application`: found applications get the enabled sentinel set
and persisted; unknown executables yield `success = false`, not an error. -/
def unblacklist_application (executable : String) (b : Backend) :
    List ApiCall × Except NvApiError BlacklistResult :=
  let rfind := find_application executable b
  match rfind.2 with
  | .ok (profile_handle, _app) =>
    let rset := set_dword_setting profile_handle SHADOWPLAY_SETTING_ID SHADOWPLAY_ENABLED b
    match rset.2 with
    | .error e => (rfind.1 ++ rset.1, .error e)
    | .ok _ =>
      let rsave := save_settings b
      match rsave.2 with
      | .error e => (rfind.1 ++ rset.1 ++ rsave.1, .error e)
      | .ok _ =>
        (rfind.1 ++ rset.1 ++ rsave.1,
          .ok { success := true, executable := executable,
                message := "Application unblacklisted successfully" })
  | .error (.ApplicationNotFound _) =>
    (rfind.1,
      .ok { success := false, executable := executable,
            message := "Application not found in driver settings" })
  | .error e => (rfind.1, .error e)

/-! ### Profile enumeration (src/src-tauri/src/nvapi/profiles.rs) -/

/-- The catalog record built from fetched profile info
(`enumerate_profiles`'s push). -/
def profileRecord (info : NvdrsProfile) : DrsProfile :=
  { name := info.profile_name,
    is_predefined := info.is_predefined != 0,
    application_count := info.num_of_apps }

/-- The `enumerate_profiles` loop.  The Rust loop has no a-priori bound, so
the model carries a fuel parameter; exhausted fuel yields `none`, and every
claim supplies enough fuel for the backend at hand. -/
def enumerate_profiles_loop (b : Backend) :
    Nat → Nat → List DrsProfile →
      List ApiCall × Option (Except NvApiError (List DrsProfile))
  | 0, _, _ => ([], none)
  | fuel + 1, index, acc =>
    let r := b.enum_profiles_resp index
    if r.1 = NVAPI_END_ENUMERATION then
      ([.enumProfiles index], some (.ok acc))
    else if r.1 ≠ NVAPI_OK then
      ([.enumProfiles index], some (.error (.NvApiStatus r.1)))
    else
      let ri := b.get_profile_info_resp r.2
      let acc' := if ri.1 = NVAPI_OK then acc ++ [profileRecord ri.2] else acc
      let rest := enumerate_profiles_loop b fuel (index + 1) acc'
      (.enumProfiles index :: .getProfileInfo r.2 :: rest.1, rest.2)

/-- `enumerate_profiles`, from index 0 with an empty accumulator. -/
def enumerate_profiles (fuel : Nat) (b : Backend) :
    List ApiCall × Option (Except NvApiError (List DrsProfile)) :=
  enumerate_profiles_loop b fuel 0 []

/-! ### Application enumeration (src/src-tauri/src/nvapi/applications.rs) -/

/-- The blacklist flag assigned by `enumerate_applications`:
`get_shadowplay_status(profile_handle).unwrap_or(false)`. -/
def shadowplay_flag (b : Backend) (profile_handle : NvDRSProfileHandle) : Bool :=
  match (get_shadowplay_status profile_handle b).2 with
  | .ok v => v
  | .error _ => false

/-- The record built for one enumerated application. -/
def enrich_application (b : Backend) (profile_handle : NvDRSProfileHandle)
    (profile_name : String) (app : NvdrsApplication) : DrsApplication :=
  { name := app.user_friendly_name,
    executable := app.app_name,
    profile_name := profile_name,
    is_predefined := app.is_predefined != 0,
    is_blacklisted := shadowplay_flag b profile_handle }

/-- The `enumerate_applications` paging loop: while `start_index < num_apps`,
request a page of 32, stop on the end-of-enumeration sentinel, a zero count or
any non-success status (keeping `acc`), otherwise append the page's records
and advance `start_index` by the returned count.  The fuel parameter only
makes the recursion structural: each iteration advances `start_index` by at
least one (a zero count stops), so the caller's fuel `num_apps` is never
exhausted before `start_index < num_apps` fails. -/
def enumerate_applications_loop (b : Backend) (profile_handle : NvDRSProfileHandle)
    (profile_name : String) (num_apps : Nat) :
    Nat → Nat → List DrsApplication → List ApiCall × List DrsApplication
  | 0, _, acc => ([], acc)
  | fuel + 1, start_index, acc =>
    if start_index < num_apps then
      let r := b.enum_applications_resp profile_handle start_index 32
      if r.1 = NVAPI_END_ENUMERATION ∨ r.2.1 = 0 then
        ([.enumApplications profile_handle start_index 32], acc)
      else if r.1 ≠ NVAPI_OK then
        ([.enumApplications profile_handle start_index 32], acc)
      else
        let page := r.2.2.take r.2.1
        let pageTrace :=
          (page.map fun _ => (get_shadowplay_status profile_handle b).1).flatten
        let recs := page.map (enrich_application b profile_handle profile_name)
        let rest := enumerate_applications_loop b profile_handle profile_name
          num_apps fuel (start_index + r.2.1) (acc ++ recs)
        (.enumApplications profile_handle start_index 32 :: pageTrace ++ rest.1,
          rest.2)
    else ([], acc)

/-- `enumerate_applications`: reads the profile's application count (falling
back to `u32::MAX` if that read fails) and runs the paging loop from index 0. -/
def enumerate_applications (profile_handle : NvDRSProfileHandle)
    (profile_name : String) (b : Backend) :
    List ApiCall × Except NvApiError (List DrsApplication) :=
  let ri := b.get_profile_info_resp profile_handle
  let num_apps := if ri.1 ≠ NVAPI_OK then U32_MAX else ri.2.num_of_apps
  let r := enumerate_applications_loop b profile_handle profile_name num_apps
    num_apps 0 []
  (.getProfileInfo profile_handle :: r.1, .ok r.2)

/-! ### Wide-character buffer write (src/src-tauri/src/nvapi/ffi.rs) -/

/-- `string_to_wchar`: the input string is represented by its list of UTF-16
code units and the destination buffer by its list of cells.  The first
`min (units.length) (buffer.length - 1)` units are copied, a null terminator
is written right after them, and the remaining cells keep their old values. -/
def string_to_wchar (units : List Nat) (buffer : List Nat) : List Nat :=
  let len := min units.length (buffer.length - 1)
  units.take len ++ [0] ++ buffer.drop (len + 1)

/-! ### Trace classification helpers -/

/-- Calls that mutate registry state or persist it. -/
def ApiCall.isMutation : ApiCall → Bool
  | .saveSettings => true
  | .createProfile _ => true
  | .createApplication _ _ => true
  | .setSetting _ _ => true
  | _ => false

/-- Profile- or application-creating calls. -/
def ApiCall.isCreation : ApiCall → Bool
  | .createProfile _ => true
  | .createApplication _ _ => true
  | _ => false

/-- Setting-read calls. -/
def ApiCall.isGetSetting : ApiCall → Bool
  | .getSetting _ _ => true
  | _ => false

/-- Application-page-fetch calls. -/
def ApiCall.isEnumApplications : ApiCall → Bool
  | .enumApplications _ _ _ => true
  | _ => false

/-! ### Expected enumeration output -/

/-- The catalog records `enumerate_profiles` collects for the `n` indices
starting at `index`: each index's handle has its info fetched, and an index
whose info fetch is not successful contributes nothing while enumeration
continues at the next index. -/
def profile_records (b : Backend) : Nat → Nat → List DrsProfile
  | _, 0 => []
  | index, n + 1 =>
    let r := b.enum_profiles_resp index
    let ri := b.get_profile_info_resp r.2
    (if ri.1 = NVAPI_OK then [profileRecord ri.2] else []) ++
      profile_records b (index + 1) n

/-! ### Concrete test-double backends -/

/-- A benign empty-registry backend: lookups report not-found, creations and
persistence succeed, enumerations are empty. -/
def baseBackend : Backend :=
  { create_session_resp := (NVAPI_OK, 1)
    load_settings_resp := fun _ => NVAPI_OK
    save_settings_resp := NVAPI_OK
    enum_profiles_resp := fun _ => (NVAPI_END_ENUMERATION, 0)
    get_profile_info_resp := fun _ => (NVAPI_OK, {})
    find_profile_resp := fun _ => (NVAPI_PROFILE_NOT_FOUND, 0)
    create_profile_resp := fun _ => (NVAPI_OK, 7)
    enum_applications_resp := fun _ _ _ => (NVAPI_END_ENUMERATION, 0, [])
    find_application_resp := fun _ => (NVAPI_EXECUTABLE_NOT_FOUND, 0, {})
    create_application_resp := fun _ _ => NVAPI_OK
    get_setting_resp := fun _ _ => (NVAPI_SETTING_NOT_FOUND, {})
    set_setting_resp := fun _ _ => NVAPI_OK
    session := 1 }

/-- Backend whose setting reads fail with the generic error status. -/
def genericErrorBackend : Backend :=
  { baseBackend with get_setting_resp := fun _ _ => (NVAPI_ERROR, {}) }

/-- Backend that already tracks every executable in profile 5 with the
ShadowPlay setting present at the disabled sentinel. -/
def existingAppBackend : Backend :=
  { baseBackend with
    find_application_resp := fun executable =>
      (NVAPI_OK, 5, applicationRecord executable "Existing"),
    get_setting_resp := fun _ setting_id =>
      (NVAPI_OK, { setting_id := setting_id,
                   current_value := SHADOWPLAY_DISABLED }) }

/-- Backend whose load-settings primitive fails after session creation. -/
def loadFailBackend : Backend :=
  { baseBackend with load_settings_resp := fun _ => NVAPI_ERROR }

/-- Backend with two profile rows: index 0's handle resolves its info, index
1's info fetch fails, index 2 is end of enumeration. -/
def profilesBackend : Backend :=
  { baseBackend with
    enum_profiles_resp := fun index =>
      if index = 0 then (NVAPI_OK, 10)
      else if index = 1 then (NVAPI_OK, 11)
      else (NVAPI_END_ENUMERATION, 0),
    get_profile_info_resp := fun profile_handle =>
      if profile_handle = 10 then
        (NVAPI_OK, { profile_name := "A", num_of_apps := 2 })
      else (NVAPI_ERROR, {}) }

/-- Test double serving a fixed application list for one profile: the profile
info reports the list's length and each page request returns the next slice
of at most the requested size. -/
def listAppsBackend (apps : List NvdrsApplication) : Backend :=
  { baseBackend with
    get_profile_info_resp := fun _ => (NVAPI_OK, { num_of_apps := apps.length }),
    enum_applications_resp := fun _ start numRequested =>
      (NVAPI_OK, min numRequested (apps.length - start),
        (apps.drop start).take numRequested) }

/-- Two applications, fitting in a single page of 32. -/
def twoApps : List NvdrsApplication :=
  [applicationRecord "a.exe" "A", applicationRecord "b.exe" "B"]

/-! ## Theorems -/

/-- C2: unblacklisting an executable the registry does not contain returns
`Ok` with `success = false` (not an error), and the only backend call issued
is the find-application lookup, so there is no set-setting, no save-settings
and no profile or application creation. -/
theorem unblacklist_application_not_found (b : Backend) (executable : String)
    (hfind : (b.find_application_resp executable).1 = NVAPI_EXECUTABLE_NOT_FOUND) :
    unblacklist_application executable b =
      ([.findApplicationByName executable],
        .ok { success := false, executable := executable,
              message := "Application not found in driver settings" }) ∧
    ∀ c ∈ (unblacklist_application executable b).1, c.isMutation = false := by
  have h1 : find_application executable b =
      ([.findApplicationByName executable],
        .error (.ApplicationNotFound executable)) := by
    simp [find_application, hfind]
  have h2 : unblacklist_application executable b =
      ([.findApplicationByName executable],
        .ok { success := false, executable := executable,
              message := "Application not found in driver settings" }) := by
    simp [unblacklist_application, h1]
  refine ⟨h2, ?_⟩
  rw [h2]
  intro c hc
  simp at hc
  subst hc
  rfl

/-- Witness for C2: the empty registry and `unknown.exe`. -/
theorem unblacklist_application_not_found_witness :
    unblacklist_application "unknown.exe" baseBackend =
      ([.findApplicationByName "unknown.exe"],
        .ok { success := false, executable := "unknown.exe",
              message := "Application not found in driver settings" }) :=
  (unblacklist_application_not_found baseBackend "unknown.exe" rfl).1

/-- C7: when the create-session primitive succeeds but load-settings returns
a non-success status, the fresh handle is passed to destroy-session before
the load-settings error is returned, so no session handle is leaked. -/
theorem create_session_no_leak (b : Backend) (handle : NvDRSSessionHandle)
    (s : Int) (hcreate : b.create_session_resp = (NVAPI_OK, handle))
    (hload : b.load_settings_resp handle = s) (hs : s ≠ NVAPI_OK) :
    create_session b =
      ([.createSession, .loadSettings handle, .destroySession handle],
        .error (.LoadSettingsFailed s)) := by
  simp [create_session, hcreate, hload, hs]

/-- Witness for C7: load-settings fails with the generic error status. -/
theorem create_session_no_leak_witness :
    create_session loadFailBackend =
      ([.createSession, .loadSettings 1, .destroySession 1],
        .error (.LoadSettingsFailed NVAPI_ERROR)) :=
  create_session_no_leak loadFailBackend 1 NVAPI_ERROR rfl rfl (by decide)

/-- C8: blacklisting an executable that is already tracked and already
blacklisted takes the existing-application path: it returns success again,
re-sets the same disabled-sentinel setting and persists, and performs no
profile or application creation. -/
theorem blacklist_application_existing (b : Backend) (executable : String)
    (handle : NvDRSProfileHandle) (app : NvdrsApplication)
    (hfind : b.find_application_resp executable = (NVAPI_OK, handle, app))
    (hblack : (get_shadowplay_status handle b).2 = .ok true)
    (hset : b.set_setting_resp handle
      (dwordSettingRecord SHADOWPLAY_SETTING_ID SHADOWPLAY_DISABLED) = NVAPI_OK)
    (hsave : b.save_settings_resp = NVAPI_OK) :
    blacklist_application executable b =
      ([.findApplicationByName executable,
        .setSetting handle
          (dwordSettingRecord SHADOWPLAY_SETTING_ID SHADOWPLAY_DISABLED),
        .saveSettings],
        .ok { success := true, executable := executable,
              message := "Application blacklisted successfully" }) ∧
    ((blacklist_application executable b).1.countP ApiCall.isCreation) = 0 := by
  have h1 : find_application executable b =
      ([.findApplicationByName executable], .ok (handle, app)) := by
    simp [find_application, hfind, NVAPI_OK, NVAPI_EXECUTABLE_NOT_FOUND]
  have h2 : set_dword_setting handle SHADOWPLAY_SETTING_ID SHADOWPLAY_DISABLED b =
      ([.setSetting handle
          (dwordSettingRecord SHADOWPLAY_SETTING_ID SHADOWPLAY_DISABLED)],
        .ok ()) := by
    simp [set_dword_setting, hset]
  have h3 : save_settings b = ([.saveSettings], .ok ()) := by
    simp [save_settings, hsave]
  have h4 : blacklist_application executable b =
      ([.findApplicationByName executable,
        .setSetting handle
          (dwordSettingRecord SHADOWPLAY_SETTING_ID SHADOWPLAY_DISABLED),
        .saveSettings],
        .ok { success := true, executable := executable,
              message := "Application blacklisted successfully" }) := by
    simp [blacklist_application, h1, h2, h3]
  refine ⟨h4, ?_⟩
  rw [h4]
  rfl

/-- Witness for C8: a registry already tracking `game.exe` in profile 5 with
the ShadowPlay setting already at the disabled sentinel. -/
theorem blacklist_application_existing_witness :
    blacklist_application "game.exe" existingAppBackend =
      ([.findApplicationByName "game.exe",
        .setSetting 5
          (dwordSettingRecord SHADOWPLAY_SETTING_ID SHADOWPLAY_DISABLED),
        .saveSettings],
        .ok { success := true, executable := "game.exe",
              message := "Application blacklisted successfully" }) :=
  (blacklist_application_existing existingAppBackend "game.exe" 5
    (applicationRecord "game.exe" "Existing") rfl rfl rfl rfl).1

/-- C5 evaluation: the setting-not-found status and a generic error status
are wrapped by `get_dword_setting` as the same `GetSettingFailed`
constructor (distinguished only by the embedded code), and the status-read
call site `get_shadowplay_status` maps a generic get failure to `Ok false`
(default enabled) instead of keeping it an error. -/
theorem get_setting_failure_conflated :
    (get_dword_setting 3 SHADOWPLAY_SETTING_ID baseBackend).2 =
      .error (.GetSettingFailed NVAPI_SETTING_NOT_FOUND) ∧
    (get_dword_setting 3 SHADOWPLAY_SETTING_ID genericErrorBackend).2 =
      .error (.GetSettingFailed NVAPI_ERROR) ∧
    (get_shadowplay_status 3 genericErrorBackend).2 = .ok false ∧
    (get_shadowplay_status 3 baseBackend).2 = .ok false :=
  ⟨rfl, rfl, rfl, rfl⟩

/-- C3: get_shadowplay_status reports blacklisted exactly when the backend
reports the feature-toggle setting present (success status) with the
disabled sentinel as its value; an absent setting yields `Ok false` rather
than an error, and any other present value also yields `Ok false`. -/
theorem get_shadowplay_status_spec (b : Backend)
    (profile_handle : NvDRSProfileHandle) :
    ((get_shadowplay_status profile_handle b).2 = .ok true ↔
      ((b.get_setting_resp profile_handle SHADOWPLAY_SETTING_ID).1 = NVAPI_OK ∧
        (b.get_setting_resp profile_handle SHADOWPLAY_SETTING_ID).2.current_value =
          SHADOWPLAY_DISABLED)) ∧
    ((b.get_setting_resp profile_handle SHADOWPLAY_SETTING_ID).1 =
        NVAPI_SETTING_NOT_FOUND →
      (get_shadowplay_status profile_handle b).2 = .ok false) ∧
    (∀ v, (b.get_setting_resp profile_handle SHADOWPLAY_SETTING_ID).1 = NVAPI_OK →
      (b.get_setting_resp profile_handle SHADOWPLAY_SETTING_ID).2.current_value = v →
      v ≠ SHADOWPLAY_DISABLED →
      (get_shadowplay_status profile_handle b).2 = .ok false) := by
  by_cases h1 : (b.get_setting_resp profile_handle SHADOWPLAY_SETTING_ID).1 =
      NVAPI_SETTING_NOT_FOUND
  · simp [get_shadowplay_status, get_dword_setting, h1, NVAPI_SETTING_NOT_FOUND,
      NVAPI_OK]
  · by_cases h2 : (b.get_setting_resp profile_handle SHADOWPLAY_SETTING_ID).1 =
        NVAPI_OK
    · simp [get_shadowplay_status, get_dword_setting, h1, h2,
        NVAPI_SETTING_NOT_FOUND, NVAPI_OK, beq_iff_eq]
    · simp [get_shadowplay_status, get_dword_setting, h1, h2]

/-- Witness for C3: an absent setting reads as not blacklisted, a present
disabled sentinel as blacklisted. -/
theorem get_shadowplay_status_spec_witness :
    (get_shadowplay_status 3 baseBackend).2 = .ok false ∧
    (get_shadowplay_status 5 existingAppBackend).2 = .ok true :=
  ⟨(get_shadowplay_status_spec baseBackend 3).2.1 rfl,
   (get_shadowplay_status_spec existingAppBackend 5).1.mpr ⟨rfl, rfl⟩⟩

/-- C9: writing into a 2048-cell buffer stores at most 2047 units of the
input followed by a null terminator; an input of fewer than 2048 units is
stored exactly and null-terminated, a longer one is truncated to its first
2047 units and null-terminated. -/
theorem string_to_wchar_spec (units buffer : List Nat)
    (hbuf : buffer.length = 2048) :
    (string_to_wchar units buffer).length = 2048 ∧
    (string_to_wchar units buffer).take (min units.length 2047) =
      units.take (min units.length 2047) ∧
    (string_to_wchar units buffer)[min units.length 2047]? = some 0 ∧
    (units.length < 2048 →
      (string_to_wchar units buffer).take units.length = units ∧
      (string_to_wchar units buffer)[units.length]? = some 0) ∧
    (2047 ≤ units.length →
      (string_to_wchar units buffer).take 2047 = units.take 2047 ∧
      (string_to_wchar units buffer)[(2047 : Nat)]? = some 0) := by
  have hw : string_to_wchar units buffer =
      units.take (min units.length 2047) ++
        ([0] ++ buffer.drop (min units.length 2047 + 1)) := by
    simp [string_to_wchar, hbuf]
  have hlen : (units.take (min units.length 2047)).length =
      min units.length 2047 := by
    simp [List.length_take]
  have htake : ∀ (l l₂ : List Nat) (n : Nat), l.length = n →
      (l ++ l₂).take n = l := by
    intro l l₂ n h
    subst h
    exact List.take_left l l₂
  have hget : ∀ (l C : List Nat) (n : Nat), l.length = n →
      (l ++ ([0] ++ C))[n]? = some 0 := by
    intro l C n h
    subst h
    rw [List.getElem?_append_right (le_refl _)]
    simp
  have t1 : (string_to_wchar units buffer).take (min units.length 2047) =
      units.take (min units.length 2047) := by
    rw [hw]; exact htake _ _ _ hlen
  have t2 : (string_to_wchar units buffer)[min units.length 2047]? = some 0 := by
    rw [hw]; exact hget _ _ _ hlen
  refine ⟨?_, t1, t2, ?_, ?_⟩
  · rw [hw]
    simp [List.length_append, List.length_take, List.length_drop, hbuf]
    omega
  · intro hlt
    have hmin : min units.length 2047 = units.length := by omega
    rw [hmin] at t1 t2
    exact ⟨by rw [t1, List.take_length], t2⟩
  · intro hge
    have hmin : min units.length 2047 = 2047 := by omega
    rw [hmin] at t1 t2
    exact ⟨t1, t2⟩

/-- Witness for C9: a two-unit input into a fresh 2048-cell buffer. -/
theorem string_to_wchar_spec_witness :
    (string_to_wchar [65, 66] (List.replicate 2048 7)).length = 2048 ∧
    (string_to_wchar [65, 66] (List.replicate 2048 7)).take 2 = [65, 66] ∧
    (string_to_wchar [65, 66] (List.replicate 2048 7))[(2 : Nat)]? = some 0 := by
  have h := string_to_wchar_spec [65, 66] (List.replicate 2048 7)
    (List.length_replicate 2048 7)
  exact ⟨h.1, (h.2.2.2.1 (by decide)).1, (h.2.2.2.1 (by decide)).2⟩

/-- The create-path result message always contains "Created profile". -/
theorem created_profile_message_contains (profile_name : String) :
    "Created profile".toList <:+:
      ("Created profile '" ++ profile_name ++
        "' and blacklisted application").toList := by
  have h2 : ∀ s t : String, (s ++ t).toList = s.toList ++ t.toList := fun s t =>
    String.data_append s t
  refine ⟨[], " '".toList ++
    (profile_name.toList ++ "' and blacklisted application".toList), ?_⟩
  have h1 : "Created profile".toList ++ " '".toList =
      "Created profile '".toList := by decide
  rw [List.nil_append, ← List.append_assoc, h1, h2, h2, List.append_assoc]

/-- C1 as stated fails on the code: at the empty registry, blacklisting
`game.exe` succeeds with message
"Created profile 'Nvidiot - game.exe' and blacklisted application", which
does not contain the (case-sensitive) substring "created profile". -/
theorem blacklist_message_case_counterexample :
    (blacklist_application "game.exe" baseBackend).2 =
      .ok { success := true, executable := "game.exe",
            message :=
              "Created profile 'Nvidiot - game.exe' and blacklisted application" } ∧
    ¬ ("created profile".toList <:+:
        "Created profile 'Nvidiot - game.exe' and blacklisted application".toList) := by
  constructor
  · rfl
  · decide

/-- C1 (amended): for an executable the registry does not contain,
blacklist derives the profile name "Nvidiot - " ++ executable, finds that
profile or creates it if absent, creates an application entry for the
executable inside it, sets the feature toggle to the disabled sentinel,
persists via save-settings, and returns success with a message containing
"Created profile". -/
theorem blacklist_application_not_found_spec (b : Backend) (executable : String)
    (hfind : (b.find_application_resp executable).1 = NVAPI_EXECUTABLE_NOT_FOUND) :
    ("Created profile".toList <:+:
      ("Created profile '" ++ ("Nvidiot - " ++ executable) ++
        "' and blacklisted application").toList) ∧
    (∀ handle,
      b.find_profile_resp ("Nvidiot - " ++ executable) = (NVAPI_OK, handle) →
      b.create_application_resp handle
        (applicationRecord executable ("Nvidiot - " ++ executable)) = NVAPI_OK →
      b.set_setting_resp handle
        (dwordSettingRecord SHADOWPLAY_SETTING_ID SHADOWPLAY_DISABLED) = NVAPI_OK →
      b.save_settings_resp = NVAPI_OK →
      blacklist_application executable b =
        ([.findApplicationByName executable,
          .findProfileByName ("Nvidiot - " ++ executable),
          .createApplication handle
            (applicationRecord executable ("Nvidiot - " ++ executable)),
          .setSetting handle
            (dwordSettingRecord SHADOWPLAY_SETTING_ID SHADOWPLAY_DISABLED),
          .saveSettings],
          .ok { success := true, executable := executable,
                message := "Created profile '" ++ ("Nvidiot - " ++ executable) ++
                  "' and blacklisted application" })) ∧
    (∀ handle,
      (b.find_profile_resp ("Nvidiot - " ++ executable)).1 =
        NVAPI_PROFILE_NOT_FOUND →
      b.create_profile_resp (profileInfoRecord ("Nvidiot - " ++ executable)) =
        (NVAPI_OK, handle) →
      b.create_application_resp handle
        (applicationRecord executable ("Nvidiot - " ++ executable)) = NVAPI_OK →
      b.set_setting_resp handle
        (dwordSettingRecord SHADOWPLAY_SETTING_ID SHADOWPLAY_DISABLED) = NVAPI_OK →
      b.save_settings_resp = NVAPI_OK →
      blacklist_application executable b =
        ([.findApplicationByName executable,
          .findProfileByName ("Nvidiot - " ++ executable),
          .createProfile (profileInfoRecord ("Nvidiot - " ++ executable)),
          .createApplication handle
            (applicationRecord executable ("Nvidiot - " ++ executable)),
          .setSetting handle
            (dwordSettingRecord SHADOWPLAY_SETTING_ID SHADOWPLAY_DISABLED),
          .saveSettings],
          .ok { success := true, executable := executable,
                message := "Created profile '" ++ ("Nvidiot - " ++ executable) ++
                  "' and blacklisted application" })) := by
  have h1 : find_application executable b =
      ([.findApplicationByName executable],
        .error (.ApplicationNotFound executable)) := by
    simp [find_application, hfind]
  refine ⟨created_profile_message_contains _, ?_, ?_⟩
  · intro handle hprof happ hset hsave
    have h2 : find_profile_by_name ("Nvidiot - " ++ executable) b =
        ([.findProfileByName ("Nvidiot - " ++ executable)], .ok handle) := by
      simp [find_profile_by_name, hprof, NVAPI_OK, NVAPI_PROFILE_NOT_FOUND]
    have h3 : create_application handle executable ("Nvidiot - " ++ executable) b =
        ([.createApplication handle
            (applicationRecord executable ("Nvidiot - " ++ executable))],
          .ok ()) := by
      simp [create_application, happ]
    have h4 : set_dword_setting handle SHADOWPLAY_SETTING_ID SHADOWPLAY_DISABLED b =
        ([.setSetting handle
            (dwordSettingRecord SHADOWPLAY_SETTING_ID SHADOWPLAY_DISABLED)],
          .ok ()) := by
      simp [set_dword_setting, hset]
    have h5 : save_settings b = ([.saveSettings], .ok ()) := by
      simp [save_settings, hsave]
    simp [blacklist_application, h1, h2, h3, h4, h5]
  · intro handle hprof hcreate happ hset hsave
    have h2 : find_profile_by_name ("Nvidiot - " ++ executable) b =
        ([.findProfileByName ("Nvidiot - " ++ executable)],
          .error (.ProfileNotFound ("Nvidiot - " ++ executable))) := by
      simp [find_profile_by_name, hprof]
    have h2b : create_profile ("Nvidiot - " ++ executable) b =
        ([.createProfile (profileInfoRecord ("Nvidiot - " ++ executable))],
          .ok handle) := by
      simp [create_profile, hcreate, NVAPI_OK]
    have h3 : create_application handle executable ("Nvidiot - " ++ executable) b =
        ([.createApplication handle
            (applicationRecord executable ("Nvidiot - " ++ executable))],
          .ok ()) := by
      simp [create_application, happ]
    have h4 : set_dword_setting handle SHADOWPLAY_SETTING_ID SHADOWPLAY_DISABLED b =
        ([.setSetting handle
            (dwordSettingRecord SHADOWPLAY_SETTING_ID SHADOWPLAY_DISABLED)],
          .ok ()) := by
      simp [set_dword_setting, hset]
    have h5 : save_settings b = ([.saveSettings], .ok ()) := by
      simp [save_settings, hsave]
    simp [blacklist_application, h1, h2, h2b, h3, h4, h5]

/-- Witness for C1: empty registry and `game.exe`, exercising the
profile-creation path. -/
theorem blacklist_application_not_found_spec_witness :
    blacklist_application "game.exe" baseBackend =
      ([.findApplicationByName "game.exe",
        .findProfileByName ("Nvidiot - " ++ "game.exe"),
        .createProfile (profileInfoRecord ("Nvidiot - " ++ "game.exe")),
        .createApplication 7
          (applicationRecord "game.exe" ("Nvidiot - " ++ "game.exe")),
        .setSetting 7 (dwordSettingRecord SHADOWPLAY_SETTING_ID SHADOWPLAY_DISABLED),
        .saveSettings],
        .ok { success := true, executable := "game.exe",
              message := "Created profile '" ++ ("Nvidiot - " ++ "game.exe") ++
                "' and blacklisted application" }) :=
  (blacklist_application_not_found_spec baseBackend "game.exe" rfl).2.2
    7 rfl rfl rfl rfl rfl

/-- Helper: the profiles loop terminates normally at the first
end-of-enumeration index, collecting the records of the preceding indices. -/
theorem enumerate_profiles_loop_ok (b : Backend) :
    ∀ (n fuel index : Nat) (acc : List DrsProfile),
      n < fuel →
      (∀ i, index ≤ i → i < index + n → (b.enum_profiles_resp i).1 = NVAPI_OK) →
      (b.enum_profiles_resp (index + n)).1 = NVAPI_END_ENUMERATION →
      (enumerate_profiles_loop b fuel index acc).2 =
        some (.ok (acc ++ profile_records b index n)) := by
  intro n
  induction n with
  | zero =>
    intro fuel index acc hfuel hok hend
    obtain ⟨fuel, rfl⟩ : ∃ f, fuel = f + 1 := ⟨fuel - 1, by omega⟩
    simp only [Nat.add_zero] at hend
    simp [enumerate_profiles_loop, profile_records, hend]
  | succ n ih =>
    intro fuel index acc hfuel hok hend
    obtain ⟨fuel, rfl⟩ : ∃ f, fuel = f + 1 := ⟨fuel - 1, by omega⟩
    have hidx : (b.enum_profiles_resp index).1 = NVAPI_OK :=
      hok index (le_refl _) (by omega)
    have hne : (b.enum_profiles_resp index).1 ≠ NVAPI_END_ENUMERATION := by
      rw [hidx]; decide
    have hstep : (enumerate_profiles_loop b (fuel + 1) index acc).2 =
        (enumerate_profiles_loop b fuel (index + 1)
          (if (b.get_profile_info_resp (b.enum_profiles_resp index).2).1 = NVAPI_OK
            then acc ++
              [profileRecord (b.get_profile_info_resp (b.enum_profiles_resp index).2).2]
            else acc)).2 := by
      simp [enumerate_profiles_loop, hne, hidx, NVAPI_OK, NVAPI_END_ENUMERATION]
    have hacc : (if (b.get_profile_info_resp (b.enum_profiles_resp index).2).1 = NVAPI_OK
        then acc ++
          [profileRecord (b.get_profile_info_resp (b.enum_profiles_resp index).2).2]
        else acc) = acc ++
          (if (b.get_profile_info_resp (b.enum_profiles_resp index).2).1 = NVAPI_OK
            then [profileRecord (b.get_profile_info_resp (b.enum_profiles_resp index).2).2]
            else []) := by
      split <;> simp
    rw [hstep, hacc, ih fuel (index + 1) _ (by omega)
      (fun i h1 h2 => hok i (by omega) (by omega))
      (by rw [show index + 1 + n = index + (n + 1) by omega]; exact hend)]
    simp [profile_records, List.append_assoc]

/-- Helper: a non-success, non-sentinel handle-fetch status at the first
such index aborts the profiles loop with that status. -/
theorem enumerate_profiles_loop_err (b : Backend) :
    ∀ (n fuel index : Nat) (acc : List DrsProfile),
      n < fuel →
      (∀ i, index ≤ i → i < index + n → (b.enum_profiles_resp i).1 = NVAPI_OK) →
      (b.enum_profiles_resp (index + n)).1 ≠ NVAPI_END_ENUMERATION →
      (b.enum_profiles_resp (index + n)).1 ≠ NVAPI_OK →
      (enumerate_profiles_loop b fuel index acc).2 =
        some (.error (.NvApiStatus (b.enum_profiles_resp (index + n)).1)) := by
  intro n
  induction n with
  | zero =>
    intro fuel index acc hfuel hok hne hnok
    obtain ⟨fuel, rfl⟩ : ∃ f, fuel = f + 1 := ⟨fuel - 1, by omega⟩
    simp only [Nat.add_zero] at hne hnok
    simp [enumerate_profiles_loop, hne, hnok]
  | succ n ih =>
    intro fuel index acc hfuel hok hne hnok
    obtain ⟨fuel, rfl⟩ : ∃ f, fuel = f + 1 := ⟨fuel - 1, by omega⟩
    have hidx : (b.enum_profiles_resp index).1 = NVAPI_OK :=
      hok index (le_refl _) (by omega)
    have hne0 : (b.enum_profiles_resp index).1 ≠ NVAPI_END_ENUMERATION := by
      rw [hidx]; decide
    have hstep : (enumerate_profiles_loop b (fuel + 1) index acc).2 =
        (enumerate_profiles_loop b fuel (index + 1)
          (if (b.get_profile_info_resp (b.enum_profiles_resp index).2).1 = NVAPI_OK
            then acc ++
              [profileRecord (b.get_profile_info_resp (b.enum_profiles_resp index).2).2]
            else acc)).2 := by
      simp [enumerate_profiles_loop, hne0, hidx, NVAPI_OK, NVAPI_END_ENUMERATION]
    rw [hstep, ih fuel (index + 1) _ (by omega)
      (fun i h1 h2 => hok i (by omega) (by omega))
      (by rw [show index + 1 + n = index + (n + 1) by omega]; exact hne)
      (by rw [show index + 1 + n = index + (n + 1) by omega]; exact hnok)]
    rw [show index + 1 + n = index + (n + 1) by omega]

/-- C6: enumerate_profiles iterates indices ascending from 0; it terminates
normally exactly at the end-of-enumeration sentinel of a handle fetch,
propagates any other non-success handle-fetch status as an error aborting the
whole enumeration, and silently skips a profile whose info fetch fails while
continuing at the next index. -/
theorem enumerate_profiles_spec (b : Backend) (fuel : Nat) :
    (∀ N, N < fuel →
      (∀ i, i < N → (b.enum_profiles_resp i).1 = NVAPI_OK) →
      (b.enum_profiles_resp N).1 = NVAPI_END_ENUMERATION →
      (enumerate_profiles fuel b).2 = some (.ok (profile_records b 0 N))) ∧
    (∀ N, N < fuel →
      (∀ i, i < N → (b.enum_profiles_resp i).1 = NVAPI_OK) →
      (b.enum_profiles_resp N).1 ≠ NVAPI_END_ENUMERATION →
      (b.enum_profiles_resp N).1 ≠ NVAPI_OK →
      (enumerate_profiles fuel b).2 =
        some (.error (.NvApiStatus (b.enum_profiles_resp N).1))) ∧
    (∀ index n, profile_records b index (n + 1) =
      (if (b.get_profile_info_resp (b.enum_profiles_resp index).2).1 = NVAPI_OK
        then [profileRecord (b.get_profile_info_resp (b.enum_profiles_resp index).2).2]
        else []) ++ profile_records b (index + 1) n) := by
  refine ⟨?_, ?_, ?_⟩
  · intro N hN hok hend
    have h := enumerate_profiles_loop_ok b N fuel 0 [] hN
      (fun i h1 h2 => hok i (by omega)) (by simpa using hend)
    simpa [enumerate_profiles] using h
  · intro N hN hok hne hnok
    have h := enumerate_profiles_loop_err b N fuel 0 [] hN
      (fun i h1 h2 => hok i (by omega)) (by simpa using hne)
      (by simpa using hnok)
    simpa [enumerate_profiles] using h
  · intro index n
    rfl

/-- Witness for C6: two profile rows then end of enumeration; the second
row's info fetch fails and the row is skipped, not fatal. -/
theorem enumerate_profiles_spec_witness :
    (enumerate_profiles 3 profilesBackend).2 =
      some (.ok [{ name := "A", is_predefined := false,
                   application_count := 2 }]) := by
  have h := (enumerate_profiles_spec profilesBackend 3).1 2 (by omega)
    (by decide) (by decide)
  rw [h]
  rfl

/-- Helper: on the list-serving test double the paging loop collects exactly
the applications remaining from the start index. -/
theorem listAppsBackend_loop_length (apps : List NvdrsApplication)
    (profile_handle : NvDRSProfileHandle) (profile_name : String) :
    ∀ (fuel start : Nat) (acc : List DrsApplication),
      apps.length - start ≤ fuel →
      ((enumerate_applications_loop (listAppsBackend apps) profile_handle
          profile_name apps.length fuel start acc).2).length =
        acc.length + (apps.length - start) := by
  intro fuel
  induction fuel with
  | zero =>
    intro start acc hle
    simp only [enumerate_applications_loop]
    omega
  | succ fuel ih =>
    intro start acc hle
    by_cases hlt : start < apps.length
    · have hresp : (listAppsBackend apps).enum_applications_resp
          profile_handle start 32 =
          (NVAPI_OK, min 32 (apps.length - start),
            (apps.drop start).take 32) := rfl
      have hc : min 32 (apps.length - start) ≠ 0 := by omega
      have hstep : (enumerate_applications_loop (listAppsBackend apps)
          profile_handle profile_name apps.length (fuel + 1) start acc).2 =
          (enumerate_applications_loop (listAppsBackend apps) profile_handle
            profile_name apps.length fuel
            (start + min 32 (apps.length - start))
            (acc ++ (((apps.drop start).take 32).take
                (min 32 (apps.length - start))).map
              (enrich_application (listAppsBackend apps) profile_handle
                profile_name))).2 := by
        simp [enumerate_applications_loop, hlt, hresp, hc,
          NVAPI_OK, NVAPI_END_ENUMERATION]
      rw [hstep, ih (start + min 32 (apps.length - start)) _ (by omega)]
      simp only [List.length_append, List.length_map, List.length_take,
        List.length_drop]
      omega
    · simp only [enumerate_applications_loop, if_neg hlt]
      omega

/-- C4: the paging loop fetches pages of 32 from index 0, stops on the
end-of-enumeration sentinel, a zero-count page or any error status while
keeping (not discarding) the partial results already collected, and on a
backend serving a fixed application list without mid-enumeration errors it
returns exactly applicationCount entries. -/
theorem enumerate_applications_spec :
    (∀ (b : Backend) (profile_handle : NvDRSProfileHandle)
        (profile_name : String) (num_apps fuel start : Nat)
        (acc : List DrsApplication),
      start < num_apps →
      ((b.enum_applications_resp profile_handle start 32).1 =
          NVAPI_END_ENUMERATION ∨
        (b.enum_applications_resp profile_handle start 32).2.1 = 0 ∨
        (b.enum_applications_resp profile_handle start 32).1 ≠ NVAPI_OK) →
      (enumerate_applications_loop b profile_handle profile_name num_apps
        (fuel + 1) start acc).2 = acc) ∧
    (∀ (apps : List NvdrsApplication) (profile_handle : NvDRSProfileHandle)
        (profile_name : String),
      ∃ l, (enumerate_applications profile_handle profile_name
          (listAppsBackend apps)).2 = .ok l ∧ l.length = apps.length) := by
  constructor
  · intro b profile_handle profile_name num_apps fuel start acc hlt hstop
    by_cases hEnd : (b.enum_applications_resp profile_handle start 32).1 =
        NVAPI_END_ENUMERATION
    · simp [enumerate_applications_loop, hlt, hEnd]
    · by_cases hz : (b.enum_applications_resp profile_handle start 32).2.1 = 0
      · simp [enumerate_applications_loop, hlt, hz]
      · have hnok : (b.enum_applications_resp profile_handle start 32).1 ≠
            NVAPI_OK := by tauto
        simp [enumerate_applications_loop, hlt, hEnd, hz, hnok]
  · intro apps profile_handle profile_name
    refine ⟨(enumerate_applications_loop (listAppsBackend apps) profile_handle
      profile_name apps.length apps.length 0 []).2, rfl, ?_⟩
    have h := listAppsBackend_loop_length apps profile_handle profile_name
      apps.length 0 [] (by omega)
    simpa using h

/-- Witness for C4: an error page keeps the partial accumulator, and a
40-application backend (two pages) yields exactly 40 records. -/
theorem enumerate_applications_spec_witness :
    (enumerate_applications_loop baseBackend 5 "P" 1 1 0
      [{ name := "n", executable := "e", profile_name := "P",
         is_predefined := false, is_blacklisted := false }]).2 =
      [{ name := "n", executable := "e", profile_name := "P",
         is_predefined := false, is_blacklisted := false }] ∧
    ∃ l, (enumerate_applications 5 "P"
        (listAppsBackend (List.replicate 40 (applicationRecord "a.exe" "A")))).2 =
      .ok l ∧
      l.length = (List.replicate 40 (applicationRecord "a.exe" "A")).length :=
  ⟨enumerate_applications_spec.1 baseBackend 5 "P" 1 0 0 _ (by decide)
      (Or.inl rfl),
   enumerate_applications_spec.2
     (List.replicate 40 (applicationRecord "a.exe" "A")) 5 "P"⟩

/-- Helper: every record the paging loop appends to an accumulator whose
records already carry the profile-level flag also carries it. -/
theorem enumerate_applications_loop_flag (b : Backend)
    (profile_handle : NvDRSProfileHandle) (profile_name : String)
    (num_apps : Nat) :
    ∀ (fuel start : Nat) (acc : List DrsApplication),
      (∀ rec ∈ acc, rec.is_blacklisted = shadowplay_flag b profile_handle) →
      ∀ rec ∈ (enumerate_applications_loop b profile_handle profile_name
          num_apps fuel start acc).2,
        rec.is_blacklisted = shadowplay_flag b profile_handle := by
  intro fuel
  induction fuel with
  | zero =>
    intro start acc hacc
    simpa [enumerate_applications_loop] using hacc
  | succ fuel ih =>
    intro start acc hacc
    by_cases hlt : start < num_apps
    · by_cases h1 : (b.enum_applications_resp profile_handle start 32).1 =
          NVAPI_END_ENUMERATION ∨
          (b.enum_applications_resp profile_handle start 32).2.1 = 0
      · simpa [enumerate_applications_loop, hlt, h1] using hacc
      · by_cases h2 : (b.enum_applications_resp profile_handle start 32).1 ≠
            NVAPI_OK
        · simpa [enumerate_applications_loop, hlt, h1, h2] using hacc
        · push_neg at h2
          rcases not_or.mp h1 with ⟨hne, hcnt⟩
          have hacc' : ∀ rec ∈ acc ++
              (((b.enum_applications_resp profile_handle start 32).2.2.take
                  (b.enum_applications_resp profile_handle start 32).2.1).map
                (enrich_application b profile_handle profile_name)),
              rec.is_blacklisted = shadowplay_flag b profile_handle := by
            intro rec hrec
            rcases List.mem_append.mp hrec with h | h
            · exact hacc rec h
            · rcases List.mem_map.mp h with ⟨a, _, rfl⟩
              rfl
          have hstep : (enumerate_applications_loop b profile_handle
              profile_name num_apps (fuel + 1) start acc).2 =
              (enumerate_applications_loop b profile_handle profile_name
                num_apps fuel
                (start + (b.enum_applications_resp profile_handle start 32).2.1)
                (acc ++
                  (((b.enum_applications_resp profile_handle start 32).2.2.take
                      (b.enum_applications_resp profile_handle start 32).2.1).map
                    (enrich_application b profile_handle profile_name)))).2 := by
            simp [enumerate_applications_loop, hlt, hne, hcnt, h2,
              NVAPI_OK, NVAPI_END_ENUMERATION]
          rw [hstep]
          exact ih _ _ hacc'
    · intro rec hrec
      apply hacc
      simpa [enumerate_applications_loop, hlt] using hrec

/-- C10 (amended): within a single enumerate_applications call every
returned record carries the same is_blacklisted value, computed once per
application from the enclosing profile's feature-toggle setting via
get_shadowplay_status on the profile handle — never from per-application
data — and any failure of that status read yields false rather than an
error. -/
theorem enumerate_applications_flag_spec (b : Backend)
    (profile_handle : NvDRSProfileHandle) (profile_name : String) :
    (∀ l, (enumerate_applications profile_handle profile_name b).2 = .ok l →
      ∀ rec ∈ l, rec.is_blacklisted = shadowplay_flag b profile_handle) ∧
    ((b.get_setting_resp profile_handle SHADOWPLAY_SETTING_ID).1 ≠ NVAPI_OK →
      shadowplay_flag b profile_handle = false) := by
  constructor
  · intro l hl rec hrec
    have hl' : (enumerate_applications_loop b profile_handle profile_name
        (if (b.get_profile_info_resp profile_handle).1 ≠ NVAPI_OK then U32_MAX
          else (b.get_profile_info_resp profile_handle).2.num_of_apps)
        (if (b.get_profile_info_resp profile_handle).1 ≠ NVAPI_OK then U32_MAX
          else (b.get_profile_info_resp profile_handle).2.num_of_apps)
        0 []).2 = l := by
      simpa [enumerate_applications] using hl
    refine enumerate_applications_loop_flag b profile_handle profile_name
      (if (b.get_profile_info_resp profile_handle).1 ≠ NVAPI_OK then U32_MAX
        else (b.get_profile_info_resp profile_handle).2.num_of_apps)
      (if (b.get_profile_info_resp profile_handle).1 ≠ NVAPI_OK then U32_MAX
        else (b.get_profile_info_resp profile_handle).2.num_of_apps)
      0 [] (by simp) rec ?_
    rw [hl']
    exact hrec
  · intro h
    by_cases h1 : (b.get_setting_resp profile_handle SHADOWPLAY_SETTING_ID).1 =
        NVAPI_SETTING_NOT_FOUND
    · simp [shadowplay_flag, get_shadowplay_status, get_dword_setting, h1]
    · simp [shadowplay_flag, get_shadowplay_status, get_dword_setting, h1, h]

/-- Witness for C10: on the list-serving double with no stored setting, the
shared flag is false. -/
theorem enumerate_applications_flag_spec_witness :
    shadowplay_flag (listAppsBackend twoApps) 5 = false :=
  (enumerate_applications_flag_spec (listAppsBackend twoApps) 5 "P").2
    (by decide)

/-- C10 as stated fails: a single page of two applications issues two
profile-level setting reads — one per application — rather than one per
page. -/
theorem enumerate_applications_per_app_reads :
    ((enumerate_applications 5 "P" (listAppsBackend twoApps)).1.countP
      ApiCall.isEnumApplications) = 1 ∧
    ((enumerate_applications 5 "P" (listAppsBackend twoApps)).1.countP
      ApiCall.isGetSetting) = 2 :=
  ⟨rfl, rfl⟩

end Nvidiot
